import Mathlib

/-!
Verification of the pixcan upload-moderation handler (src/lambda/handler.py).

The development shallowly embeds the two components of the handler file:

* `parse_multipart_form_data` — the dependency-free multipart/form-data
  parser (bytes are modelled as `List Nat`, Python `str` values as Lean
  `String`, with the character-level operations spelled out structurally so
  that every definition evaluates by kernel reduction);
* `lambda_handler` — the staged-moderation pipeline, with the S3 and
  Rekognition collaborators modelled as an oracle fixing each call's
  outcome, an explicit store `S3`, and a trace of the service calls made.
-/

namespace Pixcan

/-- Bytes, as Python `bytes`: a list of byte values. -/
abbrev Bytes := List Nat

/-- UTF-8 encoding of one character (the byte sequence Python's
`str.encode("utf-8")` produces for it). -/
def utf8Char (c : Char) : List Nat :=
  let n := c.toNat
  if n < 128 then [n]
  else if n < 2048 then [192 + n / 64, 128 + n % 64]
  else if n < 65536 then [224 + n / 4096, 128 + (n / 64) % 64, 128 + n % 64]
  else [240 + n / 262144, 128 + (n / 4096) % 64, 128 + (n / 64) % 64, 128 + n % 64]

/-- UTF-8 encoding of a character sequence. -/
def encodeChars (l : List Char) : Bytes :=
  (l.map utf8Char).flatten

/-- Python `s.encode("utf-8")`. -/
def encodeUTF8 (s : String) : Bytes :=
  encodeChars s.data

/-- Index of the first occurrence of `needle` in `hay` (Python
`bytes.find` / the scan behind `in` and `split`), `none` when absent. -/
def findSub (needle : Bytes) : Bytes → Option Nat
  | [] => if needle.isPrefixOf ([] : Bytes) then some 0 else none
  | b :: t =>
    if needle.isPrefixOf (b :: t) then some 0
    else (findSub needle t).map (· + 1)

/-- Python `needle in hay` on bytes. -/
def containsSub (needle hay : Bytes) : Bool :=
  (findSub needle hay).isSome

/-- Fuelled worker for `bsplit`; the fuel only serves termination, one unit
per separator occurrence removed. -/
def bsplitAux : Nat → Bytes → Bytes → List Bytes
  | 0, _, bs => [bs]
  | fuel + 1, sep, bs =>
    match findSub sep bs with
    | none => [bs]
    | some i => bs.take i :: bsplitAux fuel sep (bs.drop (i + sep.length))

/-- Python `bs.split(sep)` on bytes: split on every non-overlapping
occurrence of `sep`, left to right, keeping empty pieces. -/
def bsplit (sep bs : Bytes) : List Bytes :=
  bsplitAux (bs.length + 1) sep bs

/-- The characters Python `str.strip()` removes. -/
def pySpace (c : Char) : Bool :=
  c = ' ' || c = '\t' || c = '\n' || c = '\r' || c = '\x0b' || c = '\x0c'

/-- Python `str.strip()` on a character sequence. -/
def pyStrip (l : List Char) : List Char :=
  ((l.dropWhile pySpace).reverse.dropWhile pySpace).reverse

/-- Python `s.split(c)`: split on every occurrence of one character,
keeping empty pieces (so `"".split(c) = [""]`). -/
def splitOnChar (c : Char) : List Char → List (List Char)
  | [] => [[]]
  | a :: t =>
    match splitOnChar c t with
    | h :: r => if a = c then [] :: h :: r else (a :: h) :: r
    | [] => [[a]]

/-- Python `s.split("=", 1)[1]` for a string known to contain `=`: the
characters after the first `=`. -/
def afterFirstEq : List Char → List Char
  | [] => []
  | c :: t => if c = '=' then t else afterFirstEq t

/-- Python `s.strip(Chr34)` where Chr34 is the double-quote character:
remove every leading and every trailing double quote. -/
def stripQuotes (l : List Char) : List Char :=
  ((l.dropWhile (fun c => c = '"')).reverse.dropWhile (fun c => c = '"')).reverse

/-- Lines 22-27 of handler.py: split the content-type header on `;`, strip
each segment, take the first segment starting with `boundary=`, and return
the characters after `=` with surrounding double quotes stripped;
`none` when no segment starts with `boundary=`. -/
def findBoundary (content_type : String) : Option (List Char) :=
  (((splitOnChar ';' content_type.data).map pyStrip).find?
      (fun seg => "boundary=".data.isPrefixOf seg)).map
    (fun seg => stripQuotes (afterFirstEq seg))

/-- Bytes of `Content-Disposition`. -/
def contentDispositionBytes : Bytes := encodeUTF8 "Content-Disposition"

/-- Bytes of `filename`. -/
def filenameBytes : Bytes := encodeUTF8 "filename"

/-- Carriage return, line feed. -/
def CRLF : Bytes := [13, 10]

/-- The header/body separator `\r\n\r\n`. -/
def CRLFCRLF : Bytes := [13, 10, 13, 10]

/-- Lines 35-46 of handler.py: scan the candidate parts in order; the first
part containing both the `Content-Disposition` and `filename` byte strings
whose bytes contain the `\r\n\r\n` separator yields the bytes after that
separator, less one trailing `\r\n` when present; parts with the markers
but no separator are passed over, and with no match the result is `none`. -/
def partSelect : List Bytes → Option Bytes
  | [] => none
  | p :: rest =>
    if containsSub contentDispositionBytes p && containsSub filenameBytes p then
      match findSub CRLFCRLF p with
      | some i =>
        some (if CRLF.isSuffixOf (p.drop (i + 4))
              then (p.drop (i + 4)).take ((p.drop (i + 4)).length - 2)
              else p.drop (i + 4))
      | none => partSelect rest
    else partSelect rest

/-- Lines 18-49 of handler.py, `parse_multipart_form_data`: extract the
boundary from the content-type header (a missing or empty boundary raises
a `ValueError` that the function's own `except` turns into `None`), split
the body on `--boundary`, and select the file part.  `none` models Python
`None`. -/
def parse_multipart_form_data (body : Bytes) (content_type : String) : Option Bytes :=
  match findBoundary content_type with
  | none => none
  | some boundary =>
    if boundary = [] then none
    else partSelect (bsplit (encodeChars ('-' :: '-' :: boundary)) body)

/-! ## The moderation pipeline (lines 51-151 of handler.py)

External collaborators are modelled explicitly: the S3 store is a key-value
map, and an `Oracle` fixes the outcome of every collaborator call of the
run (the freshly generated uuid, and for each of put/classify/copy/delete
either success or the raised exception's message).  The handler returns the
HTTP response together with the list of collaborator calls it attempted and
the final state of the store; a call that fails leaves the store
unchanged. -/

/-- The S3 bucket contents: each key holds a byte string or nothing. -/
def S3 := String → Option Bytes

/-- `put_object`: store `v` at key `k`. -/
def S3.put (s : S3) (k : String) (v : Bytes) : S3 :=
  fun q => if q = k then some v else s q

/-- `copy_object`: the destination key receives the source key's bytes. -/
def S3.copy (s : S3) (src dst : String) : S3 :=
  fun q => if q = dst then s src else s q

/-- `delete_object`: remove key `k`. -/
def S3.del (s : S3) (k : String) : S3 :=
  fun q => if q = k then none else s q

/-- One moderation label of the Rekognition response (line 101 reads its
`Name`). -/
structure ModerationLabel where
  Name : String
  Confidence : Nat
deriving DecidableEq

/-- The outcomes of the run's collaborator calls: the generated uuid, and
for each call either success (`none` / `Except.ok`) or the message of the
exception it raises (`some msg` / `Except.error msg`). -/
structure Oracle where
  uuid : String
  putRes : Option String
  classifyRes : Except String (List ModerationLabel)
  copyRes : Option String
  deleteRes : Option String

/-- The inbound event: its headers dict, its body string (an absent body
key reads as `""` via `event.get`), the base64 flag, and the outcome of
`base64.b64decode(body)` — the stdlib decoder is a transport collaborator,
modelled by the value it returns (or the message of the error it raises)
on this body. -/
structure Event where
  headers : List (String × String)
  body : String
  isBase64Encoded : Bool
  b64 : Except String Bytes

/-- Python `dict.get k`: the value at the first matching key, else `None`. -/
def dictGet (d : List (String × String)) (k : String) : Option String :=
  (d.find? (fun kv => decide (kv.1 = k))).map (fun kv => kv.2)

/-- Python `a or b` on optional strings: `b` when `a` is `None` or empty. -/
def pyOr (a b : Option String) : Option String :=
  match a with
  | some s => if s = "" then b else some s
  | none => b

/-- Line 61: the content-type header, lowercase spelling first. -/
def contentTypeOf (e : Event) : Option String :=
  pyOr (dictGet e.headers "content-type") (dictGet e.headers "Content-Type")

/-- Lines 65-69: the body bytes — base64-decoded when flagged, else the
UTF-8 encoding of the body string. -/
def decodeBody (e : Event) : Except String Bytes :=
  if e.isBase64Encoded then e.b64 else Except.ok (encodeUTF8 e.body)

/-- One attempted collaborator call, in order of attempt. -/
inductive SCall where
  | put (key : String) (body : Bytes)
  | classify (key : String)
  | copy (src dst : String)
  | delete (key : String)
deriving DecidableEq

/-- The JSON body of the HTTP response. -/
inductive RespBody where
  | ok (file_name : String) (nsfw_detected : Bool) (labels : List String)
      (message : String) (final_location : String)
  | err (error : String) (message : String)
deriving DecidableEq

/-- The HTTP response: status code, headers, JSON body. -/
structure Response where
  statusCode : Nat
  headers : List (String × String)
  body : RespBody
deriving DecidableEq

/-- Lines 124-129: the success response headers. -/
def successHeaders : List (String × String) :=
  [("Content-Type", "application/json"),
   ("Access-Control-Allow-Origin", "*"),
   ("Access-Control-Allow-Headers", "Content-Type"),
   ("Access-Control-Allow-Methods", "POST,OPTIONS")]

/-- Lines 139-151: the uniform failure response built by the outermost
`except` from the raised exception's message. -/
def errResp (msg : String) : Response :=
  { statusCode := 500,
    headers := [("Content-Type", "application/json"),
                ("Access-Control-Allow-Origin", "*")],
    body := RespBody.err msg "Failed to process image" }

/-- A run's outcome: the response, the collaborator calls attempted, and
the final bucket state. -/
structure RunOut where
  resp : Response
  calls : List SCall
  s3 : S3

/-- Lines 51-151 of handler.py, `lambda_handler`: check configuration and
headers, decode and parse the body, then stage, classify, relocate and
clean up, converting any raised error into the uniform failure response. -/
def lambda_handler (bucket_env : Option String) (e : Event) (o : Oracle) (s3 : S3) : RunOut :=
  match bucket_env with
  | none => ⟨errResp "BUCKET_NAME environment variable not set", [], s3⟩
  | some bucket_name =>
  if bucket_name = "" then ⟨errResp "BUCKET_NAME environment variable not set", [], s3⟩ else
  match contentTypeOf e with
  | none => ⟨errResp "Missing Content-Type header", [], s3⟩
  | some content_type =>
  if content_type = "" then ⟨errResp "Missing Content-Type header", [], s3⟩ else
  match decodeBody e with
  | Except.error msg => ⟨errResp msg, [], s3⟩
  | Except.ok body =>
  match parse_multipart_form_data body content_type with
  | none => ⟨errResp "No file found in multipart/form-data payload", [], s3⟩
  | some image_data =>
  if image_data = [] then ⟨errResp "No file found in multipart/form-data payload", [], s3⟩ else
  match o.putRes with
  | some msg =>
    ⟨errResp msg, [SCall.put ("uploads/" ++ (o.uuid ++ ".jpg")) image_data], s3⟩
  | none =>
  match o.classifyRes with
  | Except.error msg =>
    ⟨errResp msg,
     [SCall.put ("uploads/" ++ (o.uuid ++ ".jpg")) image_data,
      SCall.classify ("uploads/" ++ (o.uuid ++ ".jpg"))],
     s3.put ("uploads/" ++ (o.uuid ++ ".jpg")) image_data⟩
  | Except.ok moderationLabels =>
  match o.copyRes with
  | some msg =>
    ⟨errResp msg,
     [SCall.put ("uploads/" ++ (o.uuid ++ ".jpg")) image_data,
      SCall.classify ("uploads/" ++ (o.uuid ++ ".jpg")),
      SCall.copy ("uploads/" ++ (o.uuid ++ ".jpg"))
        ((if !(moderationLabels.map ModerationLabel.Name).isEmpty then "nsfw" else "safe") ++
          "/" ++ (o.uuid ++ ".jpg"))],
     s3.put ("uploads/" ++ (o.uuid ++ ".jpg")) image_data⟩
  | none =>
  match o.deleteRes with
  | some msg =>
    ⟨errResp msg,
     [SCall.put ("uploads/" ++ (o.uuid ++ ".jpg")) image_data,
      SCall.classify ("uploads/" ++ (o.uuid ++ ".jpg")),
      SCall.copy ("uploads/" ++ (o.uuid ++ ".jpg"))
        ((if !(moderationLabels.map ModerationLabel.Name).isEmpty then "nsfw" else "safe") ++
          "/" ++ (o.uuid ++ ".jpg")),
      SCall.delete ("uploads/" ++ (o.uuid ++ ".jpg"))],
     (s3.put ("uploads/" ++ (o.uuid ++ ".jpg")) image_data).copy
       ("uploads/" ++ (o.uuid ++ ".jpg"))
       ((if !(moderationLabels.map ModerationLabel.Name).isEmpty then "nsfw" else "safe") ++
         "/" ++ (o.uuid ++ ".jpg"))⟩
  | none =>
    ⟨{ statusCode := 200,
       headers := successHeaders,
       body := RespBody.ok (o.uuid ++ ".jpg")
         (!(moderationLabels.map ModerationLabel.Name).isEmpty)
         (moderationLabels.map ModerationLabel.Name)
         ("Image moved to " ++
           (if !(moderationLabels.map ModerationLabel.Name).isEmpty then "nsfw" else "safe") ++
           " folder")
         ((if !(moderationLabels.map ModerationLabel.Name).isEmpty then "nsfw" else "safe") ++
           "/" ++ (o.uuid ++ ".jpg")) },
     [SCall.put ("uploads/" ++ (o.uuid ++ ".jpg")) image_data,
      SCall.classify ("uploads/" ++ (o.uuid ++ ".jpg")),
      SCall.copy ("uploads/" ++ (o.uuid ++ ".jpg"))
        ((if !(moderationLabels.map ModerationLabel.Name).isEmpty then "nsfw" else "safe") ++
          "/" ++ (o.uuid ++ ".jpg")),
      SCall.delete ("uploads/" ++ (o.uuid ++ ".jpg"))],
     (((s3.put ("uploads/" ++ (o.uuid ++ ".jpg")) image_data).copy
         ("uploads/" ++ (o.uuid ++ ".jpg"))
         ((if !(moderationLabels.map ModerationLabel.Name).isEmpty then "nsfw" else "safe") ++
           "/" ++ (o.uuid ++ ".jpg"))).del
       ("uploads/" ++ (o.uuid ++ ".jpg")))⟩

/-- The staging key of the run: `uploads/` + uuid + `.jpg` (lines 78-81). -/
def stagedKeyOf (o : Oracle) : String :=
  "uploads/" ++ (o.uuid ++ ".jpg")

/-- Lines 100-103: the flagged decision — true iff the returned label-name
list is non-empty. -/
def nsfwOf (L : List ModerationLabel) : Bool :=
  !(L.map ModerationLabel.Name).isEmpty

/-- Line 108: the final key — partition `nsfw` or `safe` by the flagged
decision, then the image id. -/
def finalKeyOf (o : Oracle) (L : List ModerationLabel) : String :=
  (if nsfwOf L then "nsfw" else "safe") ++ "/" ++ (o.uuid ++ ".jpg")

/-- Byte-level string comparison: `p` is a prefix of `s`. -/
def strStarts (p s : String) : Bool :=
  p.data.isPrefixOf s.data

/-! ## Concrete fixtures used to instantiate the theorems -/

/-- A well-formed upload request: one JPEG part with a declared filename. -/
def sampleEvent : Event :=
  { headers := [("content-type", "multipart/form-data; boundary=XYZ")],
    body := "--XYZ\r\nContent-Disposition: form-data; name=\"file\"; filename=\"a.jpg\"\r\n\r\nJPEGDATA\r\n--XYZ--\r\n",
    isBase64Encoded := false,
    b64 := Except.ok [] }

/-- A request whose content-type header carries no boundary directive. -/
def noBoundaryEvent : Event :=
  { headers := [("content-type", "multipart/form-data")],
    body := "IMAGEBYTES",
    isBase64Encoded := false,
    b64 := Except.ok [] }

/-- A request whose multipart body has no part with a filename. -/
def noFileEvent : Event :=
  { headers := [("content-type", "multipart/form-data; boundary=B")],
    body := "--B\r\nhello\r\n--B--",
    isBase64Encoded := false,
    b64 := Except.ok [] }

/-- A request whose file part carries an empty payload. -/
def emptyPayloadEvent : Event :=
  { headers := [("content-type", "multipart/form-data; boundary=B")],
    body := "--B\r\nContent-Disposition: form-data; name=\"file\"; filename=\"a.jpg\"\r\n\r\n\r\n--B--",
    isBase64Encoded := false,
    b64 := Except.ok [] }

/-- A run in which every collaborator call succeeds and the classifier
returns no labels. -/
def cleanOracle : Oracle :=
  { uuid := "u", putRes := none, classifyRes := Except.ok [],
    copyRes := none, deleteRes := none }

/-- A run in which every collaborator call succeeds and the classifier
returns one label. -/
def flaggedOracle : Oracle :=
  { uuid := "u", putRes := none,
    classifyRes := Except.ok [{ Name := "ExplicitNudity", Confidence := 98 }],
    copyRes := none, deleteRes := none }

/-- A run in which the copy step raises. -/
def copyFailOracle : Oracle :=
  { uuid := "u", putRes := none, classifyRes := Except.ok [],
    copyRes := some "copy failed", deleteRes := none }

/-- An empty bucket. -/
def emptyS3 : S3 := fun _ => none

/-! ## Properties -/

theorem findSub_isPrefixOf (needle : Bytes) :
    ∀ (hay : Bytes) (i : Nat), findSub needle hay = some i →
      needle.isPrefixOf (hay.drop i) = true := by
  intro hay
  induction hay with
  | nil =>
    intro i h
    by_cases hp : needle.isPrefixOf ([] : Bytes) = true
    · simp only [findSub] at h
      rw [if_pos hp] at h
      injection h with h2
      subst h2
      simpa using hp
    · simp only [findSub] at h
      rw [if_neg hp] at h
      cases h
  | cons b t ih =>
    intro i h
    by_cases hp : needle.isPrefixOf (b :: t) = true
    · simp only [findSub] at h
      rw [if_pos hp] at h
      injection h with h2
      subst h2
      simpa using hp
    · simp only [findSub] at h
      rw [if_neg hp] at h
      rcases hmap : findSub needle t with _ | j
      · rw [hmap] at h
        cases h
      · rw [hmap] at h
        injection h with h2
        subst h2
        rw [List.drop_succ_cons]
        exact ih j hmap

theorem findSub_min (needle : Bytes) :
    ∀ (hay : Bytes) (i : Nat), findSub needle hay = some i →
      ∀ j, j < i → needle.isPrefixOf (hay.drop j) = false := by
  intro hay
  induction hay with
  | nil =>
    intro i h j hj
    by_cases hp : needle.isPrefixOf ([] : Bytes) = true
    · simp only [findSub] at h
      rw [if_pos hp] at h
      injection h with h2
      exact absurd hj (by omega)
    · simp only [findSub] at h
      rw [if_neg hp] at h
      cases h
  | cons b t ih =>
    intro i h j hj
    by_cases hp : needle.isPrefixOf (b :: t) = true
    · simp only [findSub] at h
      rw [if_pos hp] at h
      injection h with h2
      exact absurd hj (by omega)
    · simp only [findSub] at h
      rw [if_neg hp] at h
      rcases hmap : findSub needle t with _ | k
      · rw [hmap] at h
        cases h
      · rw [hmap] at h
        injection h with h2
        have h3 : k + 1 = i := h2
        cases j with
        | zero =>
          rw [List.drop_zero]
          simp only [Bool.not_eq_true] at hp
          exact hp
        | succ j2 =>
          rw [List.drop_succ_cons]
          exact ih k hmap j2 (by omega)

theorem partSelect_cons_skip (f : Bytes) (rest : List Bytes)
    (hf : containsSub contentDispositionBytes f = true →
        containsSub filenameBytes f = true → findSub CRLFCRLF f = none) :
    partSelect (f :: rest) = partSelect rest := by
  cases hcd : containsSub contentDispositionBytes f with
  | false => simp [partSelect, hcd]
  | true =>
    cases hfn : containsSub filenameBytes f with
    | false => simp [partSelect, hcd, hfn]
    | true => simp [partSelect, hcd, hfn, hf hcd hfn]

theorem partSelect_append_skip (l1 rest : List Bytes)
    (h : ∀ q ∈ l1, containsSub contentDispositionBytes q = true →
        containsSub filenameBytes q = true → findSub CRLFCRLF q = none) :
    partSelect (l1 ++ rest) = partSelect rest := by
  induction l1 with
  | nil => rfl
  | cons f t ih =>
    rw [List.cons_append, partSelect_cons_skip f (t ++ rest) (h f (by simp))]
    exact ih (fun q hq => h q (by simp [hq]))

theorem partSelect_none (parts : List Bytes)
    (h : ∀ q ∈ parts, containsSub contentDispositionBytes q = true →
        containsSub filenameBytes q = true → findSub CRLFCRLF q = none) :
    partSelect parts = none := by
  have h2 := partSelect_append_skip parts [] h
  simpa using h2

theorem partSelect_cons_match (p : Bytes) (rest : List Bytes) (i : Nat)
    (hcd : containsSub contentDispositionBytes p = true)
    (hfn : containsSub filenameBytes p = true)
    (hsep : findSub CRLFCRLF p = some i) :
    partSelect (p :: rest) =
      some (if CRLF.isSuffixOf (p.drop (i + 4))
            then (p.drop (i + 4)).take ((p.drop (i + 4)).length - 2)
            else p.drop (i + 4)) := by
  simp [partSelect, hcd, hfn, hsep]

theorem take_sub_two_append_CRLF (fc : Bytes) (h : CRLF.isSuffixOf fc = true) :
    fc.take (fc.length - 2) ++ CRLF = fc := by
  obtain ⟨pre, hpre⟩ := List.isSuffixOf_iff_suffix.mp h
  subst hpre
  have h2 : (pre ++ CRLF).length - 2 = pre.length := by
    simp [CRLF]
  rw [h2, List.take_left]

theorem head_dropWhile_not {α : Type} (p : α → Bool) (l : List α) :
    ∀ x, (l.dropWhile p).head? = some x → p x = false := by
  induction l with
  | nil =>
    intro x h
    cases h
  | cons a t ih =>
    intro x h
    by_cases hp : p a = true
    · rw [List.dropWhile_cons_of_pos hp] at h
      exact ih x h
    · rw [List.dropWhile_cons_of_neg hp] at h
      injection h with h2
      subst h2
      simp only [Bool.not_eq_true] at hp
      exact hp

theorem takeWhile_quotes_replicate (l : List Char) :
    l.takeWhile (fun ch => ch = '"') =
      List.replicate (l.takeWhile (fun ch => ch = '"')).length '"' := by
  rw [List.eq_replicate_iff]
  refine ⟨rfl, ?_⟩
  intro b hb
  have h2 := List.mem_takeWhile_imp hb
  simpa using h2

theorem reverse_drop_take (mr : List Char) :
    mr.reverse = (mr.dropWhile (fun ch => ch = '"')).reverse ++
      List.replicate (mr.takeWhile (fun ch => ch = '"')).length '"' := by
  conv_lhs => rw [← List.takeWhile_append_dropWhile (fun ch => ch = '"') mr]
  rw [List.reverse_append]
  congr 1
  conv_lhs => rw [takeWhile_quotes_replicate mr, List.reverse_replicate]

theorem reverse_strip_decomp (m : List Char) :
    m = ((m.reverse.dropWhile (fun ch => ch = '"')).reverse) ++
      List.replicate ((m.reverse.takeWhile (fun ch => ch = '"'))).length '"' := by
  have h2 := reverse_drop_take m.reverse
  rw [List.reverse_reverse] at h2
  exact h2

theorem stripQuotes_spec (l : List Char) :
    ∃ a c, l = List.replicate a '"' ++ (stripQuotes l ++ List.replicate c '"') ∧
      (stripQuotes l).head? ≠ some '"' ∧ (stripQuotes l).getLast? ≠ some '"' := by
  refine ⟨(l.takeWhile (fun ch => ch = '"')).length,
    (((l.dropWhile (fun ch => ch = '"')).reverse.takeWhile (fun ch => ch = '"'))).length,
    ?_, ?_, ?_⟩
  · calc l = l.takeWhile (fun ch => ch = '"') ++ l.dropWhile (fun ch => ch = '"') :=
        (List.takeWhile_append_dropWhile _ _).symm
      _ = List.replicate (l.takeWhile (fun ch => ch = '"')).length '"' ++
            l.dropWhile (fun ch => ch = '"') := by
        conv_lhs => rw [takeWhile_quotes_replicate l]
      _ = _ := by
        conv_lhs => rw [reverse_strip_decomp (l.dropWhile (fun ch => ch = '"'))]
        simp only [stripQuotes]
  · simp only [stripQuotes]
    intro hcon
    have hm := reverse_strip_decomp (l.dropWhile (fun ch => ch = '"'))
    have htokne :
        ((l.dropWhile (fun ch => ch = '"')).reverse.dropWhile (fun ch => ch = '"')).reverse ≠ [] := by
      intro he
      rw [he] at hcon
      cases hcon
    have hmhead : (l.dropWhile (fun ch => ch = '"')).head? = some '"' := by
      rw [hm, List.head?_append_of_ne_nil _ htokne]
      exact hcon
    have h3 := head_dropWhile_not (fun ch => ch = '"') l '"' hmhead
    simp at h3
  · simp only [stripQuotes]
    intro hcon
    rw [List.getLast?_reverse] at hcon
    have h3 := head_dropWhile_not (fun ch => ch = '"')
      (l.dropWhile (fun ch => ch = '"')).reverse '"' hcon
    simp at h3

theorem stagedKey_ne_finalKey (o : Oracle) (L : List ModerationLabel) :
    stagedKeyOf o ≠ finalKeyOf o L := by
  unfold stagedKeyOf finalKeyOf
  cases hn : nsfwOf L
  · intro h
    have h2 : 'u' :: 'p' :: 'l' :: 'o' :: 'a' :: 'd' :: 's' :: '/' :: (o.uuid ++ ".jpg").data
        = 's' :: 'a' :: 'f' :: 'e' :: '/' :: (o.uuid ++ ".jpg").data := congrArg String.data h
    injection h2 with h3 _
    exact absurd h3 (by decide)
  · intro h
    have h2 : 'u' :: 'p' :: 'l' :: 'o' :: 'a' :: 'd' :: 's' :: '/' :: (o.uuid ++ ".jpg").data
        = 'n' :: 's' :: 'f' :: 'w' :: '/' :: (o.uuid ++ ".jpg").data := congrArg String.data h
    injection h2 with h3 _
    exact absurd h3 (by decide)

theorem nsfwOf_eq_true_iff (L : List ModerationLabel) : nsfwOf L = true ↔ L ≠ [] := by
  cases L <;> simp [nsfwOf]

theorem strStarts_nsfw_finalKey (o : Oracle) (L : List ModerationLabel) :
    strStarts "nsfw/" (finalKeyOf o L) = nsfwOf L := by
  unfold finalKeyOf
  cases hn : nsfwOf L
  · have hdata : ((if false then "nsfw" else "safe") ++ "/" ++ (o.uuid ++ ".jpg")).data
        = 's' :: 'a' :: 'f' :: 'e' :: '/' :: (o.uuid ++ ".jpg").data := rfl
    simp [strStarts, hdata, List.isPrefixOf]
  · have hdata : ((if true then "nsfw" else "safe") ++ "/" ++ (o.uuid ++ ".jpg")).data
        = 'n' :: 's' :: 'f' :: 'w' :: '/' :: (o.uuid ++ ".jpg").data := rfl
    simp [strStarts, hdata, List.isPrefixOf]

theorem strStarts_safe_finalKey (o : Oracle) (L : List ModerationLabel) :
    strStarts "safe/" (finalKeyOf o L) = !(nsfwOf L) := by
  unfold finalKeyOf
  cases hn : nsfwOf L
  · have hdata : ((if false then "nsfw" else "safe") ++ "/" ++ (o.uuid ++ ".jpg")).data
        = 's' :: 'a' :: 'f' :: 'e' :: '/' :: (o.uuid ++ ".jpg").data := rfl
    simp [strStarts, hdata, List.isPrefixOf]
  · have hdata : ((if true then "nsfw" else "safe") ++ "/" ++ (o.uuid ++ ".jpg")).data
        = 'n' :: 's' :: 'f' :: 'w' :: '/' :: (o.uuid ++ ".jpg").data := rfl
    simp [strStarts, hdata, List.isPrefixOf]

theorem run_shape (bucket_env : Option String) (e : Event) (o : Oracle) (s3 : S3) :
    (∃ m, lambda_handler bucket_env e o s3 = ⟨errResp m, [], s3⟩) ∨
    (∃ m d, o.putRes = some m ∧ d ≠ [] ∧
      lambda_handler bucket_env e o s3 = ⟨errResp m, [SCall.put (stagedKeyOf o) d], s3⟩) ∨
    (∃ m d, o.putRes = none ∧ o.classifyRes = Except.error m ∧ d ≠ [] ∧
      lambda_handler bucket_env e o s3 =
        ⟨errResp m, [SCall.put (stagedKeyOf o) d, SCall.classify (stagedKeyOf o)],
         S3.put s3 (stagedKeyOf o) d⟩) ∨
    (∃ m d L, o.putRes = none ∧ o.classifyRes = Except.ok L ∧ o.copyRes = some m ∧ d ≠ [] ∧
      lambda_handler bucket_env e o s3 =
        ⟨errResp m,
         [SCall.put (stagedKeyOf o) d, SCall.classify (stagedKeyOf o),
          SCall.copy (stagedKeyOf o) (finalKeyOf o L)],
         S3.put s3 (stagedKeyOf o) d⟩) ∨
    (∃ m d L, o.putRes = none ∧ o.classifyRes = Except.ok L ∧ o.copyRes = none ∧
        o.deleteRes = some m ∧ d ≠ [] ∧
      lambda_handler bucket_env e o s3 =
        ⟨errResp m,
         [SCall.put (stagedKeyOf o) d, SCall.classify (stagedKeyOf o),
          SCall.copy (stagedKeyOf o) (finalKeyOf o L), SCall.delete (stagedKeyOf o)],
         S3.copy (S3.put s3 (stagedKeyOf o) d) (stagedKeyOf o) (finalKeyOf o L)⟩) ∨
    (∃ d L, o.putRes = none ∧ o.classifyRes = Except.ok L ∧ o.copyRes = none ∧
        o.deleteRes = none ∧ d ≠ [] ∧
      lambda_handler bucket_env e o s3 =
        ⟨⟨200, successHeaders,
          RespBody.ok (o.uuid ++ ".jpg") (nsfwOf L) (L.map ModerationLabel.Name)
            ("Image moved to " ++ (if nsfwOf L then "nsfw" else "safe") ++ " folder")
            (finalKeyOf o L)⟩,
         [SCall.put (stagedKeyOf o) d, SCall.classify (stagedKeyOf o),
          SCall.copy (stagedKeyOf o) (finalKeyOf o L), SCall.delete (stagedKeyOf o)],
         S3.del (S3.copy (S3.put s3 (stagedKeyOf o) d) (stagedKeyOf o) (finalKeyOf o L))
           (stagedKeyOf o)⟩) := by
  rcases bucket_env with _ | bn
  · exact Or.inl ⟨"BUCKET_NAME environment variable not set", rfl⟩
  by_cases hbn : bn = ""
  · subst hbn
    exact Or.inl ⟨"BUCKET_NAME environment variable not set", rfl⟩
  rcases hct : contentTypeOf e with _ | ct
  · exact Or.inl ⟨"Missing Content-Type header", by simp [lambda_handler, hct, hbn]⟩
  by_cases hcte : ct = ""
  · subst hcte
    exact Or.inl ⟨"Missing Content-Type header", by simp [lambda_handler, hct, hbn]⟩
  rcases hdec : decodeBody e with msg | body
  · exact Or.inl ⟨msg, by simp [lambda_handler, hct, hbn, hcte, hdec]⟩
  rcases hparse : parse_multipart_form_data body ct with _ | d
  · exact Or.inl ⟨"No file found in multipart/form-data payload",
      by simp [lambda_handler, hct, hbn, hcte, hdec, hparse]⟩
  by_cases hd : d = []
  · subst hd
    exact Or.inl ⟨"No file found in multipart/form-data payload",
      by simp [lambda_handler, hct, hbn, hcte, hdec, hparse]⟩
  rcases hput : o.putRes with _ | msg
  swap
  · refine Or.inr (Or.inl ⟨msg, d, rfl, hd, ?_⟩)
    simp [lambda_handler, hct, hbn, hcte, hdec, hparse, hd, hput, stagedKeyOf]
  rcases hcls : o.classifyRes with msg | L
  · refine Or.inr (Or.inr (Or.inl ⟨msg, d, rfl, rfl, hd, ?_⟩))
    simp [lambda_handler, hct, hbn, hcte, hdec, hparse, hd, hput, hcls, stagedKeyOf]
  rcases hcopy : o.copyRes with _ | msg
  swap
  · refine Or.inr (Or.inr (Or.inr (Or.inl ⟨msg, d, L, rfl, rfl, rfl, hd, ?_⟩)))
    simp [lambda_handler, hct, hbn, hcte, hdec, hparse, hd, hput, hcls, hcopy,
      stagedKeyOf, finalKeyOf, nsfwOf]
  rcases hdel : o.deleteRes with _ | msg
  swap
  · refine Or.inr (Or.inr (Or.inr (Or.inr (Or.inl ⟨msg, d, L, rfl, rfl, rfl, rfl, hd, ?_⟩))))
    simp [lambda_handler, hct, hbn, hcte, hdec, hparse, hd, hput, hcls, hcopy, hdel,
      stagedKeyOf, finalKeyOf, nsfwOf]
  refine Or.inr (Or.inr (Or.inr (Or.inr (Or.inr ⟨d, L, rfl, rfl, rfl, rfl, hd, ?_⟩))))
  simp [lambda_handler, hct, hbn, hcte, hdec, hparse, hd, hput, hcls, hcopy, hdel,
    stagedKeyOf, finalKeyOf, nsfwOf]

/-- C1: in every run the delete of the staged object is attempted only after the
copy to the final key has completed successfully (the trace puts a successful copy
immediately before every delete), and in every successful run the staged key no
longer holds an object while the final key holds bytes identical to the staged
upload. -/
theorem delete_only_after_copy_success_invariant
    (bucket_env : Option String) (e : Event) (o : Oracle) (s3 : S3) :
    (∀ k, SCall.delete k ∈ (lambda_handler bucket_env e o s3).calls →
        o.copyRes = none ∧
        ∃ pre fk, (lambda_handler bucket_env e o s3).calls =
          pre ++ [SCall.copy k fk, SCall.delete k]) ∧
    ((lambda_handler bucket_env e o s3).resp.statusCode = 200 →
      ∃ d L, o.copyRes = none ∧
        (lambda_handler bucket_env e o s3).calls =
          [SCall.put (stagedKeyOf o) d, SCall.classify (stagedKeyOf o),
           SCall.copy (stagedKeyOf o) (finalKeyOf o L), SCall.delete (stagedKeyOf o)] ∧
        (lambda_handler bucket_env e o s3).s3 (stagedKeyOf o) = none ∧
        (lambda_handler bucket_env e o s3).s3 (finalKeyOf o L) = some d) := by
  rcases run_shape bucket_env e o s3 with ⟨m, h⟩ | ⟨m, d, hput, hd, h⟩ |
    ⟨m, d, hput, hcls, hd, h⟩ | ⟨m, d, L, hput, hcls, hcopy, hd, h⟩ |
    ⟨m, d, L, hput, hcls, hcopy, hdel, hd, h⟩ | ⟨d, L, hput, hcls, hcopy, hdel, hd, h⟩
  · rw [h]
    refine ⟨fun k hk => ?_, fun hs => ?_⟩
    · simp at hk
    · simp [errResp] at hs
  · rw [h]
    refine ⟨fun k hk => ?_, fun hs => ?_⟩
    · simp at hk
    · simp [errResp] at hs
  · rw [h]
    refine ⟨fun k hk => ?_, fun hs => ?_⟩
    · simp at hk
    · simp [errResp] at hs
  · rw [h]
    refine ⟨fun k hk => ?_, fun hs => ?_⟩
    · simp at hk
    · simp [errResp] at hs
  · rw [h]
    refine ⟨fun k hk => ?_, fun hs => ?_⟩
    · simp at hk
      refine ⟨hcopy, [SCall.put (stagedKeyOf o) d, SCall.classify (stagedKeyOf o)],
        finalKeyOf o L, ?_⟩
      subst hk
      rfl
    · simp [errResp] at hs
  · rw [h]
    refine ⟨fun k hk => ?_, fun _ => ?_⟩
    · simp at hk
      refine ⟨hcopy, [SCall.put (stagedKeyOf o) d, SCall.classify (stagedKeyOf o)],
        finalKeyOf o L, ?_⟩
      subst hk
      rfl
    · have hne : finalKeyOf o L ≠ stagedKeyOf o := Ne.symm (stagedKey_ne_finalKey o L)
      refine ⟨d, L, hcopy, rfl, ?_, ?_⟩
      · simp [S3.del]
      · simp [S3.del, S3.copy, S3.put, hne]

/-- C2: in every successful run the flagged boolean is true iff the label list the
classifier returned is non-empty, and the final key starts with the `nsfw/`
partition exactly when flagged and with the `safe/` partition exactly when not
flagged — never both, never neither. -/
theorem flagged_iff_labels_nonempty (bucket_env : Option String) (e : Event) (o : Oracle)
    (s3 : S3)
    (hsucc : (lambda_handler bucket_env e o s3).resp.statusCode = 200) :
    ∃ L, o.classifyRes = Except.ok L ∧
      (lambda_handler bucket_env e o s3).resp.body =
        RespBody.ok (o.uuid ++ ".jpg") (nsfwOf L) (L.map ModerationLabel.Name)
          ("Image moved to " ++ (if nsfwOf L then "nsfw" else "safe") ++ " folder")
          (finalKeyOf o L) ∧
      (nsfwOf L = true ↔ L ≠ []) ∧
      strStarts "nsfw/" (finalKeyOf o L) = nsfwOf L ∧
      strStarts "safe/" (finalKeyOf o L) = !(nsfwOf L) := by
  rcases run_shape bucket_env e o s3 with ⟨m, h⟩ | ⟨m, d, hput, hd, h⟩ |
    ⟨m, d, hput, hcls, hd, h⟩ | ⟨m, d, L, hput, hcls, hcopy, hd, h⟩ |
    ⟨m, d, L, hput, hcls, hcopy, hdel, hd, h⟩ | ⟨d, L, hput, hcls, hcopy, hdel, hd, h⟩
  · rw [h] at hsucc
    simp [errResp] at hsucc
  · rw [h] at hsucc
    simp [errResp] at hsucc
  · rw [h] at hsucc
    simp [errResp] at hsucc
  · rw [h] at hsucc
    simp [errResp] at hsucc
  · rw [h] at hsucc
    simp [errResp] at hsucc
  · exact ⟨L, hcls, by rw [h], nsfwOf_eq_true_iff L,
      strStarts_nsfw_finalKey o L, strStarts_safe_finalKey o L⟩

/-- C7: when the upload succeeded but the run still fails, the staged object is
left in place (no compensating deletion), the response is the uniform failure
response, and the only delete ever attempted is the forward step-7 delete of the
staged key, which itself failed. -/
theorem late_failure_leaves_staged_object (bucket_env : Option String) (e : Event)
    (o : Oracle) (s3 : S3) (d : Bytes)
    (hput : SCall.put (stagedKeyOf o) d ∈ (lambda_handler bucket_env e o s3).calls)
    (hok : o.putRes = none)
    (hfail : (lambda_handler bucket_env e o s3).resp.statusCode = 500) :
    (lambda_handler bucket_env e o s3).s3 (stagedKeyOf o) = some d ∧
    (∃ m, (lambda_handler bucket_env e o s3).resp = errResp m) ∧
    (∀ k, SCall.delete k ∈ (lambda_handler bucket_env e o s3).calls →
        k = stagedKeyOf o ∧ o.deleteRes ≠ none) := by
  rcases run_shape bucket_env e o s3 with ⟨m, h⟩ | ⟨m, d2, hput2, hd, h⟩ |
    ⟨m, d2, hput2, hcls, hd, h⟩ | ⟨m, d2, L, hput2, hcls, hcopy, hd, h⟩ |
    ⟨m, d2, L, hput2, hcls, hcopy, hdel, hd, h⟩ | ⟨d2, L, hput2, hcls, hcopy, hdel, hd, h⟩
  · rw [h] at hput
    simp at hput
  · rw [hok] at hput2
    cases hput2
  · rw [h] at hput
    simp at hput
    subst hput
    rw [h]
    refine ⟨by simp [S3.put], ⟨m, rfl⟩, fun k hk => ?_⟩
    simp at hk
  · rw [h] at hput
    simp at hput
    subst hput
    rw [h]
    refine ⟨by simp [S3.put], ⟨m, rfl⟩, fun k hk => ?_⟩
    simp at hk
  · rw [h] at hput
    simp at hput
    subst hput
    rw [h]
    have hne : stagedKeyOf o ≠ finalKeyOf o L := stagedKey_ne_finalKey o L
    refine ⟨by simp [S3.copy, S3.put, hne], ⟨m, rfl⟩, fun k hk => ?_⟩
    simp at hk
    exact ⟨hk, by simp [hdel]⟩
  · rw [h] at hfail
    simp at hfail

/-- C6: when the extractor returns the absence value the pipeline fails with the
NoFileFound error, makes no storage or classification calls, and leaves the
bucket untouched. -/
theorem absent_file_fails_without_calls (bucket_env : Option String) (e : Event) (o : Oracle)
    (s3 : S3) (bn ct : String) (body : Bytes)
    (hbk : bucket_env = some bn) (hbn : bn ≠ "")
    (hct : contentTypeOf e = some ct) (hcte : ct ≠ "")
    (hdec : decodeBody e = Except.ok body)
    (hparse : parse_multipart_form_data body ct = none) :
    lambda_handler bucket_env e o s3 =
      ⟨errResp "No file found in multipart/form-data payload", [], s3⟩ := by
  subst hbk
  simp [lambda_handler, hct, hbn, hcte, hdec, hparse]

/-- C10: an extracted empty payload is treated identically to absence — the
NoFileFound failure with no storage or classification calls, by the falsiness
check on line 74. -/
theorem empty_payload_treated_as_absent (bucket_env : Option String) (e : Event) (o : Oracle)
    (s3 : S3) (bn ct : String) (body : Bytes)
    (hbk : bucket_env = some bn) (hbn : bn ≠ "")
    (hct : contentTypeOf e = some ct) (hcte : ct ≠ "")
    (hdec : decodeBody e = Except.ok body)
    (hparse : parse_multipart_form_data body ct = some []) :
    lambda_handler bucket_env e o s3 =
      ⟨errResp "No file found in multipart/form-data payload", [], s3⟩ := by
  subst hbk
  simp [lambda_handler, hct, hbn, hcte, hdec, hparse]

/-- C3: for a well-formed body whose part list has exactly one part carrying both
the Content-Disposition and filename markers and a CRLFCRLF separator, extract
returns that part's bytes after the first CRLFCRLF (the returned index is the
first occurrence), with one trailing CRLF pair stripped when present. -/
theorem single_file_part_payload (body : Bytes) (ct : String) (b : List Char)
    (l1 l2 : List Bytes) (p : Bytes) (i : Nat)
    (hb : findBoundary ct = some b) (hbne : b ≠ [])
    (hparts : bsplit (encodeChars ('-' :: '-' :: b)) body = l1 ++ p :: l2)
    (hl1 : ∀ q ∈ l1, containsSub contentDispositionBytes q = true →
        containsSub filenameBytes q = true → findSub CRLFCRLF q = none)
    (hcd : containsSub contentDispositionBytes p = true)
    (hfn : containsSub filenameBytes p = true)
    (hsep : findSub CRLFCRLF p = some i)
    (_hl2 : ∀ q ∈ l2, containsSub contentDispositionBytes q = true →
        containsSub filenameBytes q = true → findSub CRLFCRLF q = none) :
    CRLFCRLF.isPrefixOf (p.drop i) = true ∧
    (∀ j, j < i → CRLFCRLF.isPrefixOf (p.drop j) = false) ∧
    ∃ pay, parse_multipart_form_data body ct = some pay ∧
      (if CRLF.isSuffixOf (p.drop (i + 4)) then p.drop (i + 4) = pay ++ CRLF
       else pay = p.drop (i + 4)) := by
  refine ⟨findSub_isPrefixOf CRLFCRLF p i hsep, findSub_min CRLFCRLF p i hsep, ?_⟩
  refine ⟨if CRLF.isSuffixOf (p.drop (i + 4))
      then (p.drop (i + 4)).take ((p.drop (i + 4)).length - 2)
      else p.drop (i + 4), ?_, ?_⟩
  · simp only [parse_multipart_form_data, hb]
    rw [if_neg hbne, hparts, partSelect_append_skip l1 (p :: l2) hl1,
      partSelect_cons_match p l2 i hcd hfn hsep]
  · by_cases hs : CRLF.isSuffixOf (p.drop (i + 4)) = true
    · rw [if_pos hs, if_pos hs]
      exact (take_sub_two_append_CRLF (p.drop (i + 4)) hs).symm
    · rw [if_neg hs, if_neg hs]

/-- C5: when no candidate part carries both markers together with a CRLFCRLF
separator, extract returns the absence value. -/
theorem no_matching_part_returns_none (body : Bytes) (ct : String) (b : List Char)
    (hb : findBoundary ct = some b) (hbne : b ≠ [])
    (h : ∀ q ∈ bsplit (encodeChars ('-' :: '-' :: b)) body,
        containsSub contentDispositionBytes q = true →
        containsSub filenameBytes q = true → findSub CRLFCRLF q = none) :
    parse_multipart_form_data body ct = none := by
  simp only [parse_multipart_form_data, hb]
  rw [if_neg hbne, partSelect_none (bsplit (encodeChars ('-' :: '-' :: b)) body) h]

/-- C4 (amended): for a content-type header lacking a boundary= segment, extract
returns the absence value without inspecting the body (the internal
MalformedHeader ValueError is caught and degraded to None), and the pipeline then
fails with the NoFileFound error with zero storage calls. -/
theorem missing_boundary_degrades_to_absence (ct : String)
    (hb : findBoundary ct = none)
    (bucket_env : Option String) (e : Event) (o : Oracle) (s3 : S3) (bn : String) (body : Bytes)
    (hbk : bucket_env = some bn) (hbn : bn ≠ "")
    (hct : contentTypeOf e = some ct) (hcte : ct ≠ "")
    (hdec : decodeBody e = Except.ok body) :
    (∀ b2 : Bytes, parse_multipart_form_data b2 ct = none) ∧
    lambda_handler bucket_env e o s3 =
      ⟨errResp "No file found in multipart/form-data payload", [], s3⟩ := by
  have habs : ∀ b2 : Bytes, parse_multipart_form_data b2 ct = none := by
    intro b2
    simp [parse_multipart_form_data, hb]
  refine ⟨habs, ?_⟩
  subst hbk
  simp [lambda_handler, hct, hbn, hcte, hdec, habs body]

/-- C4 (counterexample): at a concrete header lacking boundary=, the pipeline's
error string is exactly the NoFileFound message — not a distinct error mentioning
the header problem — because parse_multipart_form_data swallows its ValueError
and returns None. -/
theorem missing_boundary_error_not_distinct :
    parse_multipart_form_data (encodeUTF8 "IMAGEBYTES") "multipart/form-data" = none ∧
    (lambda_handler (some "bkt")
        { headers := [("content-type", "multipart/form-data")],
          body := "IMAGEBYTES", isBase64Encoded := false, b64 := Except.ok [] }
        { uuid := "u", putRes := none, classifyRes := Except.ok [],
          copyRes := none, deleteRes := none }
        (fun _ => none)).resp.body =
      RespBody.err "No file found in multipart/form-data payload" "Failed to process image" ∧
    (lambda_handler (some "bkt")
        { headers := [("content-type", "multipart/form-data")],
          body := "IMAGEBYTES", isBase64Encoded := false, b64 := Except.ok [] }
        { uuid := "u", putRes := none, classifyRes := Except.ok [],
          copyRes := none, deleteRes := none }
        (fun _ => none)).calls = [] ∧
    "No file found in multipart/form-data payload" ≠
      "No boundary found in Content-Type header" := by
  refine ⟨by decide, by decide, by decide, by decide⟩

/-- C8 (amended): the boundary token is the remainder of the boundary= segment
with ALL leading and trailing double-quote characters stripped, so the token
neither begins nor ends with a quote. -/
theorem boundary_strips_all_surrounding_quotes (ct : String) (seg : List Char)
    (hseg : ((splitOnChar ';' ct.data).map pyStrip).find?
        (fun s => "boundary=".data.isPrefixOf s) = some seg) :
    ∃ a c tok, findBoundary ct = some tok ∧
      afterFirstEq seg = List.replicate a '"' ++ (tok ++ List.replicate c '"') ∧
      tok.head? ≠ some '"' ∧ tok.getLast? ≠ some '"' := by
  obtain ⟨a, c, h1, h2, h3⟩ := stripQuotes_spec (afterFirstEq seg)
  exact ⟨a, c, stripQuotes (afterFirstEq seg), by simp [findBoundary, hseg], h1, h2, h3⟩

/-- C8 (counterexample): for boundary=""abc"" the code yields the token abc,
not the "abc" that stripping exactly one quote pair would retain. -/
theorem boundary_quotes_all_stripped_cex :
    findBoundary "multipart/form-data; boundary=\"\"abc\"\"" = some ['a', 'b', 'c'] ∧
    (['a', 'b', 'c'] : List Char) ≠ ['"', 'a', 'b', 'c', '"'] := by
  refine ⟨by decide, by decide⟩

/-- C9 (amended): the pre-boundary filler is skipped exactly when it does not
itself satisfy the selection predicate: if the first split element lacks the two
markers or the CRLFCRLF separator, extraction continues on the remaining parts. -/
theorem filler_skipped_unless_matching (body : Bytes) (ct : String) (b : List Char)
    (f : Bytes) (rest : List Bytes)
    (hb : findBoundary ct = some b) (hbne : b ≠ [])
    (hsplit : bsplit (encodeChars ('-' :: '-' :: b)) body = f :: rest)
    (hf : containsSub contentDispositionBytes f = true →
        containsSub filenameBytes f = true → findSub CRLFCRLF f = none) :
    parse_multipart_form_data body ct = partSelect rest := by
  simp only [parse_multipart_form_data, hb]
  rw [if_neg hbne, hsplit, partSelect_cons_skip f rest hf]

/-- C9 (counterexample): a body whose pre-boundary filler contains both markers
and a CRLFCRLF separator has its filler selected — extract returns the payload of
the first split element. -/
theorem preboundary_filler_can_match :
    (bsplit (encodeUTF8 "--B") (encodeUTF8 "Content-Disposition filename\r\n\r\nX--B")).head? =
      some (encodeUTF8 "Content-Disposition filename\r\n\r\nX") ∧
    containsSub contentDispositionBytes (encodeUTF8 "Content-Disposition filename\r\n\r\nX") = true ∧
    containsSub filenameBytes (encodeUTF8 "Content-Disposition filename\r\n\r\nX") = true ∧
    parse_multipart_form_data (encodeUTF8 "Content-Disposition filename\r\n\r\nX--B")
      "multipart/form-data; boundary=B" = some (encodeUTF8 "X") := by
  refine ⟨by decide, by decide, by decide, by decide⟩

theorem delete_only_after_copy_success_invariant_witness :
    (lambda_handler (some "bkt") sampleEvent cleanOracle emptyS3).resp.statusCode = 200 ∧
    ((∀ k, SCall.delete k ∈ (lambda_handler (some "bkt") sampleEvent cleanOracle emptyS3).calls →
        cleanOracle.copyRes = none ∧
        ∃ pre fk, (lambda_handler (some "bkt") sampleEvent cleanOracle emptyS3).calls =
          pre ++ [SCall.copy k fk, SCall.delete k]) ∧
    ((lambda_handler (some "bkt") sampleEvent cleanOracle emptyS3).resp.statusCode = 200 →
      ∃ d L, cleanOracle.copyRes = none ∧
        (lambda_handler (some "bkt") sampleEvent cleanOracle emptyS3).calls =
          [SCall.put (stagedKeyOf cleanOracle) d, SCall.classify (stagedKeyOf cleanOracle),
           SCall.copy (stagedKeyOf cleanOracle) (finalKeyOf cleanOracle L),
           SCall.delete (stagedKeyOf cleanOracle)] ∧
        (lambda_handler (some "bkt") sampleEvent cleanOracle emptyS3).s3
          (stagedKeyOf cleanOracle) = none ∧
        (lambda_handler (some "bkt") sampleEvent cleanOracle emptyS3).s3
          (finalKeyOf cleanOracle L) = some d)) :=
  ⟨by decide, delete_only_after_copy_success_invariant (some "bkt") sampleEvent cleanOracle emptyS3⟩

theorem flagged_iff_labels_nonempty_witness :
    (lambda_handler (some "bkt") sampleEvent flaggedOracle emptyS3).resp.statusCode = 200 ∧
    ∃ L, flaggedOracle.classifyRes = Except.ok L ∧
      (lambda_handler (some "bkt") sampleEvent flaggedOracle emptyS3).resp.body =
        RespBody.ok (flaggedOracle.uuid ++ ".jpg") (nsfwOf L) (L.map ModerationLabel.Name)
          ("Image moved to " ++ (if nsfwOf L then "nsfw" else "safe") ++ " folder")
          (finalKeyOf flaggedOracle L) ∧
      (nsfwOf L = true ↔ L ≠ []) ∧
      strStarts "nsfw/" (finalKeyOf flaggedOracle L) = nsfwOf L ∧
      strStarts "safe/" (finalKeyOf flaggedOracle L) = !(nsfwOf L) :=
  ⟨by decide, flagged_iff_labels_nonempty (some "bkt") sampleEvent flaggedOracle emptyS3 (by decide)⟩

theorem late_failure_leaves_staged_object_witness :
    (SCall.put (stagedKeyOf copyFailOracle) (encodeUTF8 "JPEGDATA") ∈
      (lambda_handler (some "bkt") sampleEvent copyFailOracle emptyS3).calls) ∧
    copyFailOracle.putRes = none ∧
    (lambda_handler (some "bkt") sampleEvent copyFailOracle emptyS3).resp.statusCode = 500 ∧
    ((lambda_handler (some "bkt") sampleEvent copyFailOracle emptyS3).s3
        (stagedKeyOf copyFailOracle) = some (encodeUTF8 "JPEGDATA") ∧
      (∃ m, (lambda_handler (some "bkt") sampleEvent copyFailOracle emptyS3).resp = errResp m) ∧
      (∀ k, SCall.delete k ∈ (lambda_handler (some "bkt") sampleEvent copyFailOracle emptyS3).calls →
        k = stagedKeyOf copyFailOracle ∧ copyFailOracle.deleteRes ≠ none)) :=
  ⟨by decide, by decide, by decide,
    late_failure_leaves_staged_object (some "bkt") sampleEvent copyFailOracle emptyS3
      (encodeUTF8 "JPEGDATA") (by decide) (by decide) (by decide)⟩

theorem absent_file_fails_without_calls_witness :
    ((some "bkt" : Option String) = some "bkt") ∧ ("bkt" : String) ≠ "" ∧
    contentTypeOf noFileEvent = some "multipart/form-data; boundary=B" ∧
    ("multipart/form-data; boundary=B" : String) ≠ "" ∧
    decodeBody noFileEvent = Except.ok (encodeUTF8 "--B\r\nhello\r\n--B--") ∧
    parse_multipart_form_data (encodeUTF8 "--B\r\nhello\r\n--B--")
      "multipart/form-data; boundary=B" = none ∧
    lambda_handler (some "bkt") noFileEvent cleanOracle emptyS3 =
      ⟨errResp "No file found in multipart/form-data payload", [], emptyS3⟩ :=
  ⟨rfl, by decide, by decide, by decide, rfl, by decide,
    absent_file_fails_without_calls (some "bkt") noFileEvent cleanOracle emptyS3
      "bkt" "multipart/form-data; boundary=B" (encodeUTF8 "--B\r\nhello\r\n--B--")
      rfl (by decide) (by decide) (by decide) rfl (by decide)⟩

theorem empty_payload_treated_as_absent_witness :
    contentTypeOf emptyPayloadEvent = some "multipart/form-data; boundary=B" ∧
    decodeBody emptyPayloadEvent =
      Except.ok (encodeUTF8 "--B\r\nContent-Disposition: form-data; name=\"file\"; filename=\"a.jpg\"\r\n\r\n\r\n--B--") ∧
    parse_multipart_form_data
      (encodeUTF8 "--B\r\nContent-Disposition: form-data; name=\"file\"; filename=\"a.jpg\"\r\n\r\n\r\n--B--")
      "multipart/form-data; boundary=B" = some [] ∧
    lambda_handler (some "bkt") emptyPayloadEvent cleanOracle emptyS3 =
      ⟨errResp "No file found in multipart/form-data payload", [], emptyS3⟩ :=
  ⟨by decide, rfl, by decide,
    empty_payload_treated_as_absent (some "bkt") emptyPayloadEvent cleanOracle emptyS3
      "bkt" "multipart/form-data; boundary=B"
      (encodeUTF8 "--B\r\nContent-Disposition: form-data; name=\"file\"; filename=\"a.jpg\"\r\n\r\n\r\n--B--")
      rfl (by decide) (by decide) (by decide) rfl (by decide)⟩

theorem single_file_part_payload_witness :
    findBoundary "multipart/form-data; boundary=B" = some ['B'] ∧
    (['B'] : List Char) ≠ [] ∧
    bsplit (encodeChars ('-' :: '-' :: ['B']))
        (encodeUTF8 "--B\r\nContent-Disposition: filename\r\n\r\nDATA\r\n--B--") =
      [[]] ++ encodeUTF8 "\r\nContent-Disposition: filename\r\n\r\nDATA\r\n" :: [encodeUTF8 "--"] ∧
    (∀ q ∈ ([[]] : List Bytes), containsSub contentDispositionBytes q = true →
        containsSub filenameBytes q = true → findSub CRLFCRLF q = none) ∧
    containsSub contentDispositionBytes
      (encodeUTF8 "\r\nContent-Disposition: filename\r\n\r\nDATA\r\n") = true ∧
    containsSub filenameBytes
      (encodeUTF8 "\r\nContent-Disposition: filename\r\n\r\nDATA\r\n") = true ∧
    findSub CRLFCRLF (encodeUTF8 "\r\nContent-Disposition: filename\r\n\r\nDATA\r\n") = some 31 ∧
    (∀ q ∈ ([encodeUTF8 "--"] : List Bytes), containsSub contentDispositionBytes q = true →
        containsSub filenameBytes q = true → findSub CRLFCRLF q = none) ∧
    (CRLFCRLF.isPrefixOf ((encodeUTF8 "\r\nContent-Disposition: filename\r\n\r\nDATA\r\n").drop 31) = true ∧
    (∀ j, j < 31 →
      CRLFCRLF.isPrefixOf ((encodeUTF8 "\r\nContent-Disposition: filename\r\n\r\nDATA\r\n").drop j) = false) ∧
    ∃ pay, parse_multipart_form_data
        (encodeUTF8 "--B\r\nContent-Disposition: filename\r\n\r\nDATA\r\n--B--")
        "multipart/form-data; boundary=B" = some pay ∧
      (if CRLF.isSuffixOf ((encodeUTF8 "\r\nContent-Disposition: filename\r\n\r\nDATA\r\n").drop (31 + 4))
       then (encodeUTF8 "\r\nContent-Disposition: filename\r\n\r\nDATA\r\n").drop (31 + 4) = pay ++ CRLF
       else pay = (encodeUTF8 "\r\nContent-Disposition: filename\r\n\r\nDATA\r\n").drop (31 + 4))) :=
  ⟨by decide, by decide, by decide, by decide, by decide, by decide, by decide, by decide,
    single_file_part_payload
      (encodeUTF8 "--B\r\nContent-Disposition: filename\r\n\r\nDATA\r\n--B--")
      "multipart/form-data; boundary=B" ['B'] [[]] [encodeUTF8 "--"]
      (encodeUTF8 "\r\nContent-Disposition: filename\r\n\r\nDATA\r\n") 31
      (by decide) (by decide) (by decide) (by decide) (by decide) (by decide) (by decide)
      (by decide)⟩

theorem no_matching_part_returns_none_witness :
    findBoundary "multipart/form-data; boundary=B" = some ['B'] ∧
    (∀ q ∈ bsplit (encodeChars ('-' :: '-' :: ['B'])) (encodeUTF8 "--B\r\nhello\r\n--B--"),
        containsSub contentDispositionBytes q = true →
        containsSub filenameBytes q = true → findSub CRLFCRLF q = none) ∧
    parse_multipart_form_data (encodeUTF8 "--B\r\nhello\r\n--B--")
      "multipart/form-data; boundary=B" = none :=
  ⟨by decide, by decide,
    no_matching_part_returns_none (encodeUTF8 "--B\r\nhello\r\n--B--")
      "multipart/form-data; boundary=B" ['B'] (by decide) (by decide) (by decide)⟩

theorem missing_boundary_degrades_to_absence_witness :
    findBoundary "multipart/form-data" = none ∧
    contentTypeOf noBoundaryEvent = some "multipart/form-data" ∧
    decodeBody noBoundaryEvent = Except.ok (encodeUTF8 "IMAGEBYTES") ∧
    ((∀ b2 : Bytes, parse_multipart_form_data b2 "multipart/form-data" = none) ∧
      lambda_handler (some "bkt") noBoundaryEvent cleanOracle emptyS3 =
        ⟨errResp "No file found in multipart/form-data payload", [], emptyS3⟩) :=
  ⟨by decide, by decide, rfl,
    missing_boundary_degrades_to_absence "multipart/form-data" (by decide)
      (some "bkt") noBoundaryEvent cleanOracle emptyS3 "bkt" (encodeUTF8 "IMAGEBYTES")
      rfl (by decide) (by decide) (by decide) rfl⟩

theorem boundary_strips_all_surrounding_quotes_witness :
    ((splitOnChar ';' ("multipart/form-data; boundary=\"\"abc\"\"").data).map pyStrip).find?
      (fun s => "boundary=".data.isPrefixOf s) = some ("boundary=\"\"abc\"\"").data ∧
    (∃ a c tok, findBoundary "multipart/form-data; boundary=\"\"abc\"\"" = some tok ∧
      afterFirstEq ("boundary=\"\"abc\"\"").data =
        List.replicate a '"' ++ (tok ++ List.replicate c '"') ∧
      tok.head? ≠ some '"' ∧ tok.getLast? ≠ some '"') :=
  ⟨by decide,
    boundary_strips_all_surrounding_quotes "multipart/form-data; boundary=\"\"abc\"\""
      ("boundary=\"\"abc\"\"").data (by decide)⟩

theorem filler_skipped_unless_matching_witness :
    findBoundary "multipart/form-data; boundary=B" = some ['B'] ∧
    bsplit (encodeChars ('-' :: '-' :: ['B']))
        (encodeUTF8 "junk--B\r\nContent-Disposition: filename\r\n\r\nD\r\n--B--") =
      encodeUTF8 "junk" ::
        [encodeUTF8 "\r\nContent-Disposition: filename\r\n\r\nD\r\n", encodeUTF8 "--"] ∧
    (containsSub contentDispositionBytes (encodeUTF8 "junk") = true →
      containsSub filenameBytes (encodeUTF8 "junk") = true →
      findSub CRLFCRLF (encodeUTF8 "junk") = none) ∧
    parse_multipart_form_data
        (encodeUTF8 "junk--B\r\nContent-Disposition: filename\r\n\r\nD\r\n--B--")
        "multipart/form-data; boundary=B" =
      partSelect [encodeUTF8 "\r\nContent-Disposition: filename\r\n\r\nD\r\n", encodeUTF8 "--"] :=
  ⟨by decide, by decide, by decide,
    filler_skipped_unless_matching
      (encodeUTF8 "junk--B\r\nContent-Disposition: filename\r\n\r\nD\r\n--B--")
      "multipart/form-data; boundary=B" ['B'] (encodeUTF8 "junk")
      [encodeUTF8 "\r\nContent-Disposition: filename\r\n\r\nD\r\n", encodeUTF8 "--"]
      (by decide) (by decide) (by decide) (by decide)⟩

end Pixcan
